import Mathlib

/-!
Verification of the Smart Garden care heuristic engine.

Shallow embedding of the watering recommendation logic
(`utils/plant_service.py`, `PlantService.calculate_watering_schedule`),
the sun-exposure estimate and current-weather fallback
(`utils/weather_service.py`), and the plant record store id assignment
(`utils/data_manager.py`).

Modelling conventions:
  * Python `datetime` timestamps used only for subtraction (last-watered /
    now in the watering computation) are modelled as integer seconds since
    the epoch; `timedelta.days` is floor division by 86400 (`Int.fdiv`).
  * Python `datetime` values used only through their `.hour` / `.minute`
    attributes and `.replace(hour=..., minute=...)` (sun exposure, mock
    weather) are modelled by the `Datetime` structure below.
  * Temperatures, cloud cover and precipitation are rationals; the Python
    dict lookups `d.get(key, default)` become `Option` fields read with
    `Option.getD`.
  * Python `round` (banker's rounding, exact on our rational inputs) is
    `round_half_even`.
-/

/-- Time-of-day view of a Python `datetime`: an opaque date component plus
the `.hour` and `.minute` attributes the code reads. -/
structure Datetime where
  day : ℤ
  hour : ℕ
  minute : ℕ
  deriving DecidableEq, Repr

/-- One entry of the forecast list built by `WeatherService.get_forecast`.
`precipitation` is optional because `calculate_watering_schedule` reads it
with `item.get("precipitation", 0)`. -/
structure ForecastEntry where
  temperature : ℤ
  condition : String
  description : String
  precipitation : Option ℚ
  cloud_cover : ℚ
  humidity : ℕ
  deriving DecidableEq, Repr

/-- The precipitation of a forecast entry as the code reads it:
`item.get("precipitation", 0)`. -/
def ForecastEntry.precip (e : ForecastEntry) : ℚ :=
  e.precipitation.getD 0

/-- The current-weather dict as consumed by the heuristic engine; every
field is read via `dict.get` with a default, hence `Option`. -/
structure WeatherData where
  temperature : Option ℚ
  cloud_cover : Option ℚ
  sunrise : Option Datetime
  sunset : Option Datetime
  deriving DecidableEq, Repr

/-- Result dict of `calculate_watering_schedule`.  The early return for a
plant that was never watered carries fewer keys than the scheduled case,
hence two constructors. -/
inductive WateringResult where
  | newPlant (needs_water : Bool) (days_since_watered : ℤ)
      (message : String) (urgency : String)
  | scheduled (needs_water : Bool) (days_since_watered : ℤ)
      (adjusted_interval : ℤ) (message : String) (urgency : String)
      (recent_rain : Bool) (rain_expected : Bool)
  deriving DecidableEq, Repr

def WateringResult.needs_water : WateringResult → Bool
  | .newPlant nw _ _ _ => nw
  | .scheduled nw _ _ _ _ _ _ => nw

def WateringResult.urgency : WateringResult → String
  | .newPlant _ _ _ u => u
  | .scheduled _ _ _ _ u _ _ => u

def WateringResult.days_since_watered : WateringResult → ℤ
  | .newPlant _ d _ _ => d
  | .scheduled _ d _ _ _ _ _ => d

/-- `days_since = (datetime.now() - last_watered).days`: floor division of
the elapsed seconds by 86400. -/
def days_since_last (now last_watered : ℤ) : ℤ :=
  Int.fdiv (now - last_watered) 86400

/-- Recent-rain scan: any of the first 8 forecast entries (≈24 h) with
precipitation > 0.  The code guards the loop with `if forecast_data:`. -/
def recent_rain_check (forecast_data : List ForecastEntry) : Bool :=
  if forecast_data.isEmpty then false
  else (forecast_data.take 8).any fun item => decide (0 < item.precip)

/-- Rain-expected scan: any of the first 4 forecast entries (≈12 h) with
precipitation > 0. -/
def rain_expected_check (forecast_data : List ForecastEntry) : Bool :=
  if forecast_data.isEmpty then false
  else (forecast_data.take 4).any fun item => decide (0 < item.precip)

/-- Temperature adjustment of the base watering interval:
`max(1, base - 1)` when hotter than 35 °C, `base + 1` when colder than
15 °C, unchanged otherwise. -/
def adjust_interval (base_interval_days : ℤ) (current_temp : ℚ) : ℤ :=
  if 35 < current_temp then max 1 (base_interval_days - 1)
  else if current_temp < 15 then base_interval_days + 1
  else base_interval_days

/-- `PlantService.calculate_watering_schedule`.  `now` is the value of
`datetime.now()` (in seconds) during the call; `last_watered = none`
models an absent (`None` / empty) timestamp. -/
def calculate_watering_schedule (_plant_name : String)
    (base_interval_days : ℤ) (last_watered : Option ℤ)
    (weather_data : WeatherData) (forecast_data : List ForecastEntry)
    (now : ℤ) : WateringResult :=
  match last_watered with
  | none =>
      .newPlant true 0 "New plant! Water it now to get started." "high"
  | some lw =>
      let days_since := days_since_last now lw
      let recent_rain := recent_rain_check forecast_data
      let current_temp := (weather_data.temperature).getD 25
      let adjusted_interval := adjust_interval base_interval_days current_temp
      let rain_expected := rain_expected_check forecast_data
      if recent_rain then
        .scheduled false days_since adjusted_interval
          "✅ Recent rain detected. No need to water yet." "low"
          recent_rain rain_expected
      else if rain_expected then
        .scheduled false days_since adjusted_interval
          "🌧️ Rain expected soon. Hold off on watering." "low"
          recent_rain rain_expected
      else if adjusted_interval ≤ days_since then
        if adjusted_interval + 1 ≤ days_since then
          .scheduled true days_since adjusted_interval
            (s!"💧 Needs water! It\x27s been {days_since} days (recommended: every {adjusted_interval} days).")
            "high" recent_rain rain_expected
        else
          .scheduled true days_since adjusted_interval
            (s!"💧 Time to water! It\x27s been {days_since} days.")
            "medium" recent_rain rain_expected
      else
        let days_until := adjusted_interval - days_since
        .scheduled false days_since adjusted_interval
          (s!"✅ Happy! Next watering in {days_until} day(s).") "low"
          recent_rain rain_expected

/-- A concrete dry forecast entry (precipitation 0) for witnesses. -/
def dryEntry : ForecastEntry :=
  { temperature := 30, condition := "Clear", description := "clear sky"
    precipitation := some 0, cloud_cover := 10, humidity := 60 }

/-- A concrete rainy forecast entry for witnesses. -/
def rainEntry : ForecastEntry :=
  { temperature := 28, condition := "Rain", description := "light rain"
    precipitation := some (5/2), cloud_cover := 80, humidity := 60 }

/-- A concrete current-weather dict with temperature 25 °C. -/
def mildWeather : WeatherData :=
  { temperature := some 25, cloud_cover := some 10
    sunrise := none, sunset := none }

/-! ### Weather service: rounding, sun exposure, current-weather fallback -/

/-- Python `round` to an integer: round half to even (exact on rationals). -/
def round_half_even (q : ℚ) : ℤ :=
  if q - ⌊q⌋ < 1/2 then ⌊q⌋
  else if 1/2 < q - ⌊q⌋ then ⌊q⌋ + 1
  else if ⌊q⌋ % 2 = 0 then ⌊q⌋ else ⌊q⌋ + 1

/-- Python `round(q, 1)`. -/
def round1 (q : ℚ) : ℚ :=
  (round_half_even (q * 10) : ℚ) / 10

/-- `pat.isPrefixOf l` written out, for the substring test below. -/
def listStartsWith : List Char → List Char → Bool
  | [], _ => true
  | _ :: _, [] => false
  | c :: cs, d :: ds => c == d && listStartsWith cs ds

/-- Naive substring search over character lists. -/
def listContainsSub (pat : List Char) : List Char → Bool
  | [] => pat.isEmpty
  | c :: rest => listStartsWith pat (c :: rest) || listContainsSub pat rest

/-- Python `sub in s` on strings. -/
def strCont (s sub : String) : Bool :=
  listContainsSub sub.toList s.toList

/-- `WeatherService._get_sun_recommendation`. -/
def get_sun_recommendation (exposure : String) (temperature : ℚ)
    (is_daytime : Bool) (_hours_since_sunrise : ℚ) : String :=
  if is_daytime = false then "🌙 Night time - No sun exposure"
  else if strCont exposure "Very High" = true ∧ 35 < temperature then
    "⚠️ High heat and intense sun! Consider moving to shade or providing extra water."
  else if strCont exposure "Very High" = true then
    "☀️ Very sunny conditions. Ensure adequate watering."
  else if strCont exposure "High" = true ∧ strCont exposure "Monitor" = true then
    "☀️ High sun exposure. Monitor temperature and water needs."
  else if strCont exposure "High" = true then
    "✅ Good sun exposure. Monitor soil moisture."
  else if strCont exposure "Moderate" = true then
    "✅ Moderate conditions. Plant should be comfortable."
  else if strCont exposure "Low" = true then
    "🌥️ Limited sunlight. Consider moving to brighter location if plant needs more light."
  else "✅ Conditions are suitable for your plant."

/-- Intensity label and raw (pre-placement) sun hours from the time-of-day
band and cloud cover.  `remaining_hours` is
`(sunset_time_minutes - current_time_minutes) / 60`, used only in the
afternoon band. -/
def sun_intensity_hours (is_daytime : Bool)
    (hours_since_sunrise remaining_hours cloud_cover : ℚ) : String × ℚ :=
  if is_daytime = false then ("None", 0)
  else if hours_since_sunrise < 4 then
    if cloud_cover < 20 then ("Medium", 2 + (4 - hours_since_sunrise) * 0.5)
    else if cloud_cover < 50 then ("Low", 1 + (4 - hours_since_sunrise) * 0.3)
    else ("Low", 0.5)
  else if hours_since_sunrise < 8 then
    if cloud_cover < 20 then ("High", 4 + (8 - hours_since_sunrise) * 0.5)
    else if cloud_cover < 50 then ("Medium", 2 + (8 - hours_since_sunrise) * 0.3)
    else ("Low", 1)
  else
    if cloud_cover < 20 then ("Medium-High", max 0 remaining_hours)
    else if cloud_cover < 50 then ("Medium", (max 0 remaining_hours) * 0.7)
    else ("Low", (max 0 remaining_hours) * 0.4)

/-- The `placement_impact` lookup: sun multiplier and exposure class. -/
def placement_impact (placement : String) : ℚ × String :=
  if placement = "Open Roof" then (1, "Full")
  else if placement = "Balcony" then (0.7, "Partial")
  else if placement = "Indoor Window" then (0.4, "Indirect")
  else (0.5, "Unknown")

/-- Result dict of `get_sun_exposure_estimate`. -/
structure SunExposureResult where
  sun_intensity : String
  cloud_cover : ℚ
  placement : String
  estimated_exposure : String
  is_daytime : Bool
  sun_hours : ℚ
  risk_level : String
  recommendation : String
  deriving DecidableEq, Repr

/-- Exposure label and risk level from intensity, exposure class,
temperature and time since sunrise. -/
def exposure_risk (is_daytime : Bool) (sun_intensity exposure_class : String)
    (temperature hours_since_sunrise : ℚ) : String × String :=
  if is_daytime = false then ("No Sun (Night)", "None")
  else if sun_intensity = "High" ∧ exposure_class = "Full" then
    if 35 < temperature ∧ 4 ≤ hours_since_sunrise then
      ("Very High - Risk of Overheating", "High")
    else if 30 < temperature then ("High - Monitor Temperature", "Medium")
    else ("High - Good Conditions", "Low")
  else if sun_intensity = "High" ∧ exposure_class = "Partial" then
    ("High - Monitor closely", "Low")
  else if sun_intensity = "Medium-High" ∨ sun_intensity = "Medium" then
    ("Moderate - Good conditions", "None")
  else ("Low - May need more light", "None")

/-- Assembly of the sun-exposure result once daytime status, hours since
sunrise and remaining daylight hours are known. -/
def sun_exposure_core (placement : String) (cloud_cover temperature : ℚ)
    (is_daytime : Bool) (hours_since_sunrise remaining_hours : ℚ) :
    SunExposureResult :=
  let ih := sun_intensity_hours is_daytime hours_since_sunrise remaining_hours cloud_cover
  let placement_data := placement_impact placement
  let adjusted_sun_hours := ih.2 * placement_data.1
  let er := exposure_risk is_daytime ih.1 placement_data.2 temperature hours_since_sunrise
  { sun_intensity := ih.1
    cloud_cover := cloud_cover
    placement := placement
    estimated_exposure := er.1
    is_daytime := is_daytime
    sun_hours := round1 adjusted_sun_hours
    risk_level := er.2
    recommendation :=
      get_sun_recommendation er.1 temperature is_daytime hours_since_sunrise }

/-- `WeatherService.get_sun_exposure_estimate`.  `now_hour`/`now_minute`
are `datetime.now().hour` / `.minute`.  When sunrise or sunset is missing
the code leaves `is_daytime = True` and `hours_since_sunrise = 0`; the
afternoon band (which would read the sunset time) is then unreachable, so
0 is passed for the remaining daylight hours. -/
def get_sun_exposure_estimate (placement : String)
    (current_weather : WeatherData) (_user_sun_preference : String)
    (now_hour now_minute : ℕ) : SunExposureResult :=
  let cloud_cover := (current_weather.cloud_cover).getD 0
  let temperature := (current_weather.temperature).getD 25
  let current_time_minutes := now_hour * 60 + now_minute
  match current_weather.sunrise, current_weather.sunset with
  | some sunrise, some sunset =>
      let sunrise_time_minutes := sunrise.hour * 60 + sunrise.minute
      let sunset_time_minutes := sunset.hour * 60 + sunset.minute
      let is_daytime := decide (sunrise_time_minutes ≤ current_time_minutes ∧
        current_time_minutes ≤ sunset_time_minutes)
      let hours_since_sunrise : ℚ :=
        if is_daytime then
          ((current_time_minutes : ℚ) - (sunrise_time_minutes : ℚ)) / 60
        else 0
      sun_exposure_core placement cloud_cover temperature is_daytime
        hours_since_sunrise
        (((sunset_time_minutes : ℚ) - (current_time_minutes : ℚ)) / 60)
  | _, _ =>
      sun_exposure_core placement cloud_cover temperature true 0 0

/-- Raw JSON body of a 200 response from the current-weather endpoint, with
the fields `get_current_weather` extracts.  The two `sys_*` fields stand
for `datetime.fromtimestamp` of the raw epoch values. -/
structure OwmCurrentResponse where
  main_temp : ℚ
  main_feels_like : ℚ
  main_humidity : ℕ
  weather_main : String
  weather_description : String
  weather_icon : String
  clouds_all : ℕ
  wind_speed : ℚ
  name : String
  sys_country : String
  sys_sunrise : Datetime
  sys_sunset : Datetime
  deriving DecidableEq, Repr

/-- Outcome of the `requests.get` call: a response with a status code and
(for status 200) a parsed body, or a raised exception (timeout, connection
error, ...). -/
inductive HttpOutcome where
  | response (status : ℕ) (body : OwmCurrentResponse)
  | error
  deriving DecidableEq, Repr

/-- The dict returned by `get_current_weather` / `_get_mock_weather`:
the full structured field set callers rely on. -/
structure WeatherSnapshot where
  temperature : ℤ
  feels_like : ℤ
  condition : String
  description : String
  humidity : ℕ
  cloud_cover : ℕ
  wind_speed : ℚ
  icon : String
  city : String
  country : String
  sunrise : Datetime
  sunset : Datetime
  timestamp : Datetime
  deriving DecidableEq, Repr

/-- `config.DEFAULT_CITY`. -/
def DEFAULT_CITY : String := "Sialkot"

/-- Python `dt.replace(hour=h, minute=m)`. -/
def Datetime.replaceTime (d : Datetime) (h m : ℕ) : Datetime :=
  { d with hour := h, minute := m }

/-- `WeatherService._get_mock_weather`: the baked-in default snapshot. -/
def get_mock_weather (now : Datetime) : WeatherSnapshot :=
  { temperature := 32, feels_like := 35, condition := "Clear"
    description := "clear sky", humidity := 60, cloud_cover := 10
    wind_speed := 5, icon := "01d", city := DEFAULT_CITY, country := "PK"
    sunrise := now.replaceTime 6 0, sunset := now.replaceTime 18 0
    timestamp := now }

/-- `WeatherService.get_current_weather`: an empty API key, a raised
request exception, or a non-200 status each fall back to the mock
snapshot; a 200 response is parsed into the snapshot fields. -/
def get_current_weather (api_key : String) (outcome : HttpOutcome)
    (now : Datetime) : WeatherSnapshot :=
  if api_key = "" then get_mock_weather now
  else
    match outcome with
    | .error => get_mock_weather now
    | .response status body =>
        if status = 200 then
          { temperature := round_half_even body.main_temp
            feels_like := round_half_even body.main_feels_like
            condition := body.weather_main
            description := body.weather_description
            humidity := body.main_humidity
            cloud_cover := body.clouds_all
            wind_speed := body.wind_speed
            icon := body.weather_icon
            city := body.name
            country := body.sys_country
            sunrise := body.sys_sunrise
            sunset := body.sys_sunset
            timestamp := now }
        else get_mock_weather now

/-- A weather fetch failed: missing API key, raised exception (HTTP error
or timeout), or non-200 status. -/
def fetchFailed (api_key : String) (outcome : HttpOutcome) : Prop :=
  api_key = "" ∨ outcome = .error ∨
    ∃ s b, outcome = .response s b ∧ s ≠ 200

/-! ### Data manager: plant store and id assignment -/

/-- A stored plant record, reduced to the fields the id logic touches. -/
structure Plant where
  id : ℤ
  name : String
  deriving DecidableEq, Repr

/-- `max([p.get('id', 0) for p in plants] + [0])`. -/
def maxId (plants : List Plant) : ℤ :=
  plants.foldr (fun p m => max p.id m) 0

/-- `DataManager.add_plant`: assigns `maxId + 1` and appends; returns the
new plant and the updated store. -/
def add_plant (plants : List Plant) (name : String) : Plant × List Plant :=
  let new_id := maxId plants + 1
  let plant : Plant := { id := new_id, name := name }
  (plant, plants ++ [plant])

/-- `DataManager.delete_plant`: removes every record with the given id. -/
def delete_plant (plants : List Plant) (plant_id : ℤ) : List Plant :=
  plants.filter fun p => p.id ≠ plant_id

/-- One store operation. -/
inductive StoreOp where
  | add (name : String)
  | delete (plant_id : ℤ)
  deriving DecidableEq, Repr

/-- Run a sequence of store operations; returns the final store and the
ids assigned by the `add` operations, in order. -/
def runOps : List StoreOp → List Plant → List Plant × List ℤ
  | [], plants => (plants, [])
  | StoreOp.add n :: rest, plants =>
      ((runOps rest (add_plant plants n).2).1,
        (add_plant plants n).1.id :: (runOps rest (add_plant plants n).2).2)
  | StoreOp.delete i :: rest, plants => runOps rest (delete_plant plants i)

/-- The ids assigned over a history starting from an empty store. -/
def assignedIds (ops : List StoreOp) : List ℤ :=
  (runOps ops []).2

/-- A history containing no delete operation. -/
def noDelete : List StoreOp → Bool
  | [] => true
  | StoreOp.add _ :: rest => noDelete rest
  | StoreOp.delete _ :: _ => false

/-- A concrete current-weather dict at 22:00 with sunrise 06:00 and
sunset 18:00 (night time). -/
def nightWeather : WeatherData :=
  { temperature := some 20, cloud_cover := some 10
    sunrise := some ⟨0, 6, 0⟩, sunset := some ⟨0, 18, 0⟩ }

/-! ### Helper lemmas -/

lemma rain_check_eq (fc : List ForecastEntry) :
    recent_rain_check fc = (fc.take 8).any fun e => decide (0 < e.precip) := by
  cases fc <;> rfl

lemma rain_expected_eq (fc : List ForecastEntry) :
    rain_expected_check fc = (fc.take 4).any fun e => decide (0 < e.precip) := by
  cases fc <;> rfl

lemma take_four_subset_take_eight (fc : List ForecastEntry) :
    fc.take 4 ⊆ fc.take 8 := by
  intro x hx
  apply List.take_subset 4 (fc.take 8)
  have h48 : min 4 8 = 4 := by norm_num
  rw [List.take_take, h48]
  exact hx

lemma recent_rain_check_true {fc : List ForecastEntry}
    (h : ∃ e ∈ fc.take 8, 0 < e.precip) : recent_rain_check fc = true := by
  obtain ⟨e, he, hp⟩ := h
  rw [rain_check_eq, List.any_eq_true]
  exact ⟨e, he, by simpa using hp⟩

lemma recent_rain_check_false {fc : List ForecastEntry}
    (h : ∀ e ∈ fc.take 8, ¬ 0 < e.precip) : recent_rain_check fc = false := by
  rw [rain_check_eq, List.any_eq_false]
  intro e he
  simpa using h e he

lemma rain_expected_check_false {fc : List ForecastEntry}
    (h : ∀ e ∈ fc.take 8, ¬ 0 < e.precip) : rain_expected_check fc = false := by
  rw [rain_expected_eq, List.any_eq_false]
  intro e he
  simpa using h e (take_four_subset_take_eight fc he)

/-- With no precipitation in the first 8 forecast entries and the elapsed
days at least the adjusted interval, the watering branch fires and picks
the urgency tier by comparing against adjusted interval + 1. -/
lemma watering_urgency_of_no_rain (pn : String) (b lw now : ℤ)
    (w : WeatherData) (fc : List ForecastEntry)
    (hno : ∀ e ∈ fc.take 8, ¬ 0 < e.precip)
    (hdue : adjust_interval b ((w.temperature).getD 25) ≤ days_since_last now lw) :
    (calculate_watering_schedule pn b (some lw) w fc now).needs_water = true ∧
    (calculate_watering_schedule pn b (some lw) w fc now).urgency =
      if adjust_interval b ((w.temperature).getD 25) + 1 ≤ days_since_last now lw
      then "high" else "medium" := by
  have h8 : recent_rain_check fc = false := recent_rain_check_false hno
  have h4 : rain_expected_check fc = false := rain_expected_check_false hno
  by_cases hhigh :
      adjust_interval b ((w.temperature).getD 25) + 1 ≤ days_since_last now lw
  · constructor <;>
      simp [calculate_watering_schedule, h8, h4, hdue, hhigh,
        WateringResult.needs_water, WateringResult.urgency]
  · constructor <;>
      simp [calculate_watering_schedule, h8, h4, hdue, hhigh,
        WateringResult.needs_water, WateringResult.urgency]

/-! ### Claims about the watering computation -/

/-- Claim C2: whenever some entry among the first 8 forecast entries has
precipitation > 0, the result has `needs_water = false`, for every value
of the elapsed days. -/
theorem rain_in_24h_suppresses_watering (pn : String) (b lw now : ℤ)
    (w : WeatherData) (fc : List ForecastEntry)
    (h : ∃ e ∈ fc.take 8, 0 < e.precip) :
    (calculate_watering_schedule pn b (some lw) w fc now).needs_water = false := by
  have hrr : recent_rain_check fc = true := recent_rain_check_true h
  simp [calculate_watering_schedule, hrr, WateringResult.needs_water]

/-- Witness for claim C2 at a concrete rainy forecast. -/
theorem rain_in_24h_suppresses_watering_witness :
    (∃ e ∈ (rainEntry :: List.replicate 7 dryEntry).take 8, 0 < e.precip) ∧
    (calculate_watering_schedule "Rose" 3 (some 0) mildWeather
        (rainEntry :: List.replicate 7 dryEntry) 864000).needs_water = false := by
  have htake : (rainEntry :: List.replicate 7 dryEntry).take 8 =
      rainEntry :: List.replicate 7 dryEntry := rfl
  have hmem : rainEntry ∈ (rainEntry :: List.replicate 7 dryEntry).take 8 := by
    rw [htake]
    exact List.mem_cons_self _ _
  have hpr : 0 < rainEntry.precip := by
    norm_num [rainEntry, ForecastEntry.precip, Option.getD_some]
  have h : ∃ e ∈ (rainEntry :: List.replicate 7 dryEntry).take 8, 0 < e.precip :=
    ⟨rainEntry, hmem, hpr⟩
  exact ⟨h, rain_in_24h_suppresses_watering "Rose" 3 0 864000 mildWeather
    (rainEntry :: List.replicate 7 dryEntry) h⟩

/-- Claim C3: with no precipitation in the first 8 forecast entries, if the
elapsed days reach the adjusted interval the plant needs water, with
urgency "high" when the elapsed days reach adjusted interval + 1 and
"medium" when they equal the adjusted interval exactly. -/
theorem watering_due_when_elapsed (pn : String) (b lw now : ℤ)
    (w : WeatherData) (fc : List ForecastEntry)
    (hno : ∀ e ∈ fc.take 8, ¬ 0 < e.precip)
    (hdue : adjust_interval b ((w.temperature).getD 25) ≤ days_since_last now lw) :
    (calculate_watering_schedule pn b (some lw) w fc now).needs_water = true ∧
    (calculate_watering_schedule pn b (some lw) w fc now).urgency =
      if adjust_interval b ((w.temperature).getD 25) + 1 ≤ days_since_last now lw
      then "high" else "medium" :=
  watering_urgency_of_no_rain pn b lw now w fc hno hdue

/-- Witness for claim C3: interval 3, 4 days elapsed, 25 °C, dry forecast. -/
theorem watering_due_when_elapsed_witness :
    (∀ e ∈ (List.replicate 8 dryEntry).take 8, ¬ 0 < e.precip) ∧
    adjust_interval 3 ((mildWeather.temperature).getD 25) ≤ days_since_last 345600 0 ∧
    (calculate_watering_schedule "Rose" 3 (some 0) mildWeather
        (List.replicate 8 dryEntry) 345600).needs_water = true ∧
    (calculate_watering_schedule "Rose" 3 (some 0) mildWeather
        (List.replicate 8 dryEntry) 345600).urgency = "high" := by
  have h1 : ∀ e ∈ (List.replicate 8 dryEntry).take 8, ¬ 0 < e.precip := by decide
  have h2 : adjust_interval 3 ((mildWeather.temperature).getD 25) ≤
      days_since_last 345600 0 := by decide
  have h := watering_due_when_elapsed "Rose" 3 0 345600 mildWeather
    (List.replicate 8 dryEntry) h1 h2
  exact ⟨h1, h2, h.1, by rw [h.2]; decide⟩

/-- Claim C1 counterexample: with base interval 3, last-watered exactly 4
days before now, 25 °C and a fully dry forecast, the urgency is "high"
(4 ≥ adjusted interval + 1 = 4), not "medium" as claimed. -/
theorem interval3_day4_counterexample :
    ¬ ((calculate_watering_schedule "Rose" 3 (some 0) mildWeather
          (List.replicate 8 dryEntry) 345600).needs_water = true ∧
       (calculate_watering_schedule "Rose" 3 (some 0) mildWeather
          (List.replicate 8 dryEntry) 345600).urgency = "medium") := by
  decide

/-- Claim C1 (amended): with base interval 3, last-watered exactly 4 days
before now, temperature 25 °C and no precipitation in any forecast entry,
the result has `needs_water = true` and `urgency = "high"`. -/
theorem interval3_day4_amended (lw now : ℤ) (w : WeatherData)
    (fc : List ForecastEntry)
    (hlw : now - lw = 345600)
    (htemp : (w.temperature).getD 25 = 25)
    (hno : ∀ e ∈ fc, ¬ 0 < e.precip) :
    (calculate_watering_schedule "Rose" 3 (some lw) w fc now).needs_water = true ∧
    (calculate_watering_schedule "Rose" 3 (some lw) w fc now).urgency = "high" := by
  have hds : days_since_last now lw = 4 := by
    unfold days_since_last
    rw [hlw]
    decide
  have hadj : adjust_interval 3 ((w.temperature).getD 25) = 3 := by
    rw [htemp]
    decide
  have h := watering_urgency_of_no_rain "Rose" 3 lw now w fc
    (fun e he => hno e (List.take_subset 8 fc he))
    (by rw [hds, hadj]; decide)
  refine ⟨h.1, ?_⟩
  rw [h.2, hds, hadj]
  decide

/-- Witness for the amended claim C1 at concrete inputs. -/
theorem interval3_day4_amended_witness :
    (345600 - 0 : ℤ) = 345600 ∧
    ((mildWeather.temperature).getD 25 = 25) ∧
    (∀ e ∈ List.replicate 8 dryEntry, ¬ 0 < e.precip) ∧
    (calculate_watering_schedule "Rose" 3 (some 0) mildWeather
        (List.replicate 8 dryEntry) 345600).needs_water = true ∧
    (calculate_watering_schedule "Rose" 3 (some 0) mildWeather
        (List.replicate 8 dryEntry) 345600).urgency = "high" := by
  have h1 : (345600 - 0 : ℤ) = 345600 := by decide
  have h2 : (mildWeather.temperature).getD 25 = 25 := by decide
  have h3 : ∀ e ∈ List.replicate 8 dryEntry, ¬ 0 < e.precip := by decide
  have h := interval3_day4_amended 0 345600 mildWeather
    (List.replicate 8 dryEntry) h1 h2 h3
  exact ⟨h1, h2, h3, h.1, h.2⟩

/-- Claim C4: for a base interval ≥ 1, the adjusted interval is
`max 1 (base − 1)` above 35 °C, `base + 1` below 15 °C, unchanged on
[15, 35], and monotone: adjusted(hot) ≤ base ≤ adjusted(cold). -/
theorem adjust_interval_monotone_in_heat (b : ℤ) (t_hot t_mid t_cold : ℚ)
    (hb : 1 ≤ b) (hhot : 35 < t_hot) (hmid1 : 15 ≤ t_mid) (hmid2 : t_mid ≤ 35)
    (hcold : t_cold < 15) :
    adjust_interval b t_hot = max 1 (b - 1) ∧
    adjust_interval b t_cold = b + 1 ∧
    adjust_interval b t_mid = b ∧
    adjust_interval b t_hot ≤ b ∧ b ≤ adjust_interval b t_cold := by
  have h1 : adjust_interval b t_hot = max 1 (b - 1) := by
    unfold adjust_interval
    rw [if_pos hhot]
  have h2 : adjust_interval b t_cold = b + 1 := by
    unfold adjust_interval
    rw [if_neg (by linarith), if_pos hcold]
  have h3 : adjust_interval b t_mid = b := by
    unfold adjust_interval
    rw [if_neg (by linarith), if_neg (by linarith)]
  refine ⟨h1, h2, h3, ?_, ?_⟩
  · rw [h1]; omega
  · rw [h2]; omega

/-- Witness for claim C4 at base 3 and temperatures 36 / 25 / 10 °C. -/
theorem adjust_interval_monotone_witness :
    (1 : ℤ) ≤ 3 ∧ (35 : ℚ) < 36 ∧ (15 : ℚ) ≤ 25 ∧ (25 : ℚ) ≤ 35 ∧ (10 : ℚ) < 15 ∧
    adjust_interval 3 36 = max 1 (3 - 1) ∧
    adjust_interval 3 10 = 3 + 1 ∧
    adjust_interval 3 25 = 3 ∧
    adjust_interval 3 36 ≤ 3 ∧ (3 : ℤ) ≤ adjust_interval 3 10 := by
  have h := adjust_interval_monotone_in_heat 3 36 25 10 (by norm_num)
    (by norm_num) (by norm_num) (by norm_num) (by norm_num)
  exact ⟨by norm_num, by norm_num, by norm_num, by norm_num, by norm_num,
    h.1, h.2.1, h.2.2.1, h.2.2.2.1, h.2.2.2.2⟩

/-- Claim C5: the watering computation is a deterministic, side-effect-free
function of its inputs — two runs on identical inputs (plant name, base
interval, last-watered, weather, forecast, clock reading) agree. -/
theorem calculate_watering_schedule_deterministic (pn : String) (b : ℤ)
    (lw : Option ℤ) (w : WeatherData) (fc : List ForecastEntry) (now : ℤ) :
    calculate_watering_schedule pn b lw w fc now =
      calculate_watering_schedule pn b lw w fc now := rfl

/-- Claim C6: an absent last-watered timestamp yields `needs_water = true`
and urgency "high", whatever the interval, weather and forecast are. -/
theorem new_plant_needs_water (pn : String) (b : ℤ) (w : WeatherData)
    (fc : List ForecastEntry) (now : ℤ) :
    (calculate_watering_schedule pn b none w fc now).needs_water = true ∧
    (calculate_watering_schedule pn b none w fc now).urgency = "high" :=
  ⟨rfl, rfl⟩

/-- Claim C10: the urgency is always one of "low", "medium", "high", and
the plant needs water exactly when the urgency is "medium" or "high". -/
theorem urgency_tiers_invariant (pn : String) (b : ℤ) (lw : Option ℤ)
    (w : WeatherData) (fc : List ForecastEntry) (now : ℤ) :
    ((calculate_watering_schedule pn b lw w fc now).urgency = "low" ∨
     (calculate_watering_schedule pn b lw w fc now).urgency = "medium" ∨
     (calculate_watering_schedule pn b lw w fc now).urgency = "high") ∧
    ((calculate_watering_schedule pn b lw w fc now).needs_water = true ↔
      ((calculate_watering_schedule pn b lw w fc now).urgency = "medium" ∨
       (calculate_watering_schedule pn b lw w fc now).urgency = "high")) := by
  cases lw with
  | none =>
      constructor
      · exact Or.inr (Or.inr rfl)
      · simp [calculate_watering_schedule, WateringResult.needs_water,
          WateringResult.urgency]
  | some t =>
      by_cases h1 : recent_rain_check fc = true
      · simp [calculate_watering_schedule, h1, WateringResult.needs_water,
          WateringResult.urgency]
      · by_cases h2 : rain_expected_check fc = true
        · simp [calculate_watering_schedule, h1, h2,
            WateringResult.needs_water, WateringResult.urgency]
        · by_cases h3 :
              adjust_interval b ((w.temperature).getD 25) ≤ days_since_last now t
          · by_cases h4 : adjust_interval b ((w.temperature).getD 25) + 1 ≤
                days_since_last now t
            · simp [calculate_watering_schedule, h1, h2, h3, h4,
                WateringResult.needs_water, WateringResult.urgency]
            · simp [calculate_watering_schedule, h1, h2, h3, h4,
                WateringResult.needs_water, WateringResult.urgency]
          · simp [calculate_watering_schedule, h1, h2, h3,
              WateringResult.needs_water, WateringResult.urgency]

/-! ### Sun exposure: non-negativity and night behaviour -/

lemma round_half_even_nonneg {q : ℚ} (h : 0 ≤ q) : 0 ≤ round_half_even q := by
  unfold round_half_even
  have hf : (0 : ℤ) ≤ ⌊q⌋ := Int.floor_nonneg.mpr h
  split_ifs <;> omega

lemma round1_nonneg {q : ℚ} (h : 0 ≤ q) : 0 ≤ round1 q := by
  unfold round1
  have h10 : (0 : ℚ) ≤ q * 10 := by positivity
  have hr := round_half_even_nonneg h10
  exact div_nonneg (by exact_mod_cast hr) (by norm_num)

lemma round_half_even_zero : round_half_even 0 = 0 := by
  unfold round_half_even
  norm_num

lemma round1_zero : round1 0 = 0 := by
  unfold round1
  rw [zero_mul, round_half_even_zero]
  norm_num

lemma sun_intensity_hours_nonneg (d : Bool) (h r c : ℚ) :
    0 ≤ (sun_intensity_hours d h r c).2 := by
  unfold sun_intensity_hours
  have hm : (0 : ℚ) ≤ max 0 r := le_max_left 0 r
  split_ifs <;> dsimp only <;> linarith

lemma sun_intensity_hours_night (h r c : ℚ) :
    sun_intensity_hours false h r c = ("None", 0) := rfl

lemma placement_multiplier_nonneg (p : String) : 0 ≤ (placement_impact p).1 := by
  unfold placement_impact
  split_ifs <;> norm_num

lemma sun_core_hours_nonneg (p : String) (cc t : ℚ) (d : Bool) (h r : ℚ) :
    0 ≤ (sun_exposure_core p cc t d h r).sun_hours :=
  round1_nonneg (mul_nonneg (sun_intensity_hours_nonneg d h r cc)
    (placement_multiplier_nonneg p))

lemma sun_core_night (p : String) (cc t : ℚ) (h r : ℚ) :
    (sun_exposure_core p cc t false h r).sun_hours = 0 ∧
    (sun_exposure_core p cc t false h r).sun_intensity = "None" := by
  constructor
  · show round1 ((sun_intensity_hours false h r cc).2 * (placement_impact p).1) = 0
    rw [sun_intensity_hours_night]
    show round1 (0 * (placement_impact p).1) = 0
    rw [zero_mul, round1_zero]
  · show (sun_intensity_hours false h r cc).1 = "None"
    rw [sun_intensity_hours_night]

/-- Claim C7: the estimated sun hours are never negative, and whenever the
current time is not between sunrise and sunset (night) the result reports
0 sun hours with intensity "None". -/
theorem sun_exposure_nonneg_and_night (placement : String) (w : WeatherData)
    (pref : String) (nh nm : ℕ) :
    0 ≤ (get_sun_exposure_estimate placement w pref nh nm).sun_hours ∧
    (∀ sr ss, w.sunrise = some sr → w.sunset = some ss →
      ¬ (sr.hour * 60 + sr.minute ≤ nh * 60 + nm ∧
         nh * 60 + nm ≤ ss.hour * 60 + ss.minute) →
      (get_sun_exposure_estimate placement w pref nh nm).sun_hours = 0 ∧
      (get_sun_exposure_estimate placement w pref nh nm).sun_intensity = "None") := by
  obtain ⟨t, cc, osr, oss⟩ := w
  constructor
  · cases osr <;> cases oss <;> exact sun_core_hours_nonneg _ _ _ _ _ _
  · intro sr ss hsr hss hnot
    have hsr' : osr = some sr := hsr
    have hss' : oss = some ss := hss
    subst hsr'
    subst hss'
    have hd : decide (sr.hour * 60 + sr.minute ≤ nh * 60 + nm ∧
        nh * 60 + nm ≤ ss.hour * 60 + ss.minute) = false := decide_eq_false hnot
    simp only [get_sun_exposure_estimate, hd, Bool.false_eq_true, if_false]
    exact sun_core_night _ _ _ _ _

/-- Witness for claim C7 at 22:00 with sunrise 06:00 and sunset 18:00. -/
theorem sun_exposure_nonneg_and_night_witness :
    0 ≤ (get_sun_exposure_estimate "Open Roof" nightWeather "Full Sun" 22 0).sun_hours ∧
    ¬ ((6 : ℕ) * 60 + 0 ≤ 22 * 60 + 0 ∧ (22 : ℕ) * 60 + 0 ≤ 18 * 60 + 0) ∧
    (get_sun_exposure_estimate "Open Roof" nightWeather "Full Sun" 22 0).sun_hours = 0 ∧
    (get_sun_exposure_estimate "Open Roof" nightWeather "Full Sun" 22 0).sun_intensity = "None" := by
  have h := sun_exposure_nonneg_and_night "Open Roof" nightWeather "Full Sun" 22 0
  have hn : ¬ ((6 : ℕ) * 60 + 0 ≤ 22 * 60 + 0 ∧ (22 : ℕ) * 60 + 0 ≤ 18 * 60 + 0) := by
    decide
  have h2 := h.2 ⟨0, 6, 0⟩ ⟨0, 18, 0⟩ rfl rfl hn
  exact ⟨h.1, hn, h2.1, h2.2⟩

/-! ### Weather fetch failure fallback -/

/-- Claim C8: every weather-fetch failure (missing API key, raised request
exception, non-200 status) yields the baked-in default snapshot; the
function is total, so callers always receive the full structured field
set and no failure escapes. -/
theorem weather_failure_falls_back (k : String) (o : HttpOutcome)
    (now : Datetime) (h : fetchFailed k o) :
    get_current_weather k o now = get_mock_weather now := by
  rcases h with hk | ho | ⟨s, b, ho, hs⟩
  · simp [get_current_weather, hk]
  · subst ho
    by_cases hk : k = "" <;> simp [get_current_weather, hk]
  · subst ho
    by_cases hk : k = "" <;> simp [get_current_weather, hk, hs]

/-- Witness for claim C8: a raised request exception with a non-empty key. -/
theorem weather_failure_falls_back_witness :
    fetchFailed "key" HttpOutcome.error ∧
    get_current_weather "key" HttpOutcome.error ⟨0, 12, 0⟩ =
      get_mock_weather ⟨0, 12, 0⟩ := by
  have hf : fetchFailed "key" HttpOutcome.error := Or.inr (Or.inl rfl)
  exact ⟨hf, weather_failure_falls_back "key" HttpOutcome.error ⟨0, 12, 0⟩ hf⟩

/-! ### Plant store id assignment -/

lemma maxId_cons (a : Plant) (l : List Plant) :
    maxId (a :: l) = max a.id (maxId l) := rfl

lemma mem_le_maxId {ps : List Plant} {p : Plant} (h : p ∈ ps) :
    p.id ≤ maxId ps := by
  induction ps with
  | nil => simp at h
  | cons a l ih =>
      rw [maxId_cons]
      rcases List.mem_cons.mp h with rfl | h'
      · exact le_max_left _ _
      · exact le_trans (ih h') (le_max_right _ _)

lemma maxId_nonneg (ps : List Plant) : 0 ≤ maxId ps := by
  induction ps with
  | nil => exact le_refl 0
  | cons a l ih =>
      rw [maxId_cons]
      exact le_trans ih (le_max_right _ _)

lemma add_plant_fst_id (ps : List Plant) (n : String) :
    (add_plant ps n).1.id = maxId ps + 1 := rfl

lemma add_plant_snd (ps : List Plant) (n : String) :
    (add_plant ps n).2 = ps ++ [⟨maxId ps + 1, n⟩] := rfl

lemma add_plant_id_gt {ps : List Plant} {n : String} {p : Plant}
    (h : p ∈ ps) : p.id < (add_plant ps n).1.id := by
  have hle := mem_le_maxId h
  rw [add_plant_fst_id]
  omega

lemma maxId_append_single (l : List Plant) (q : Plant) :
    maxId (l ++ [q]) = max (maxId l) (max q.id 0) := by
  induction l with
  | nil => simp [maxId]
  | cons a t ih =>
      rw [List.cons_append, maxId_cons, ih, maxId_cons, max_assoc]

lemma maxId_append_new (ps : List Plant) (n : String) :
    maxId (ps ++ [(⟨maxId ps + 1, n⟩ : Plant)]) = maxId ps + 1 := by
  rw [maxId_append_single]
  have h0 : 0 ≤ maxId ps := maxId_nonneg ps
  rw [max_eq_left (by omega : (0 : ℤ) ≤ maxId ps + 1)]
  exact max_eq_right (by omega)

lemma runOps_ids_spec (ops : List StoreOp) (ps : List Plant)
    (hnd : noDelete ops = true) :
    List.Chain' (· < ·) (runOps ops ps).2 ∧
    ∀ i ∈ (runOps ops ps).2, maxId ps < i := by
  induction ops generalizing ps with
  | nil =>
      refine ⟨List.chain'_nil, ?_⟩
      intro i hi
      simp [runOps] at hi
  | cons op rest ih =>
      cases op with
      | delete j => simp [noDelete] at hnd
      | add n =>
          have hnd' : noDelete rest = true := hnd
          have hids : (runOps (StoreOp.add n :: rest) ps).2 =
              (maxId ps + 1) ::
                (runOps rest (ps ++ [(⟨maxId ps + 1, n⟩ : Plant)])).2 := rfl
          obtain ⟨ihc, ihm⟩ := ih (ps ++ [(⟨maxId ps + 1, n⟩ : Plant)]) hnd'
          have hmax := maxId_append_new ps n
          constructor
          · rw [hids]
            refine List.chain'_cons'.mpr ⟨?_, ihc⟩
            intro y hy
            have hym := ihm y (List.mem_of_mem_head? hy)
            rw [hmax] at hym
            omega
          · intro i hi
            rw [hids] at hi
            rcases List.mem_cons.mp hi with rfl | hi'
            · omega
            · have := ihm i hi'
              rw [hmax] at this
              omega

/-- Claim C9 counterexample: over the history add, add, delete 2, add the
assigned ids are [1, 2, 2] — the third add reuses the id of the second
one, so ids are not strictly increasing across the whole history. -/
theorem plant_id_reuse_counterexample :
    assignedIds [StoreOp.add "a", StoreOp.add "b",
      StoreOp.delete 2, StoreOp.add "c"] = [1, 2, 2] ∧
    ¬ List.Chain' (· < ·) (assignedIds [StoreOp.add "a", StoreOp.add "b",
      StoreOp.delete 2, StoreOp.add "c"]) := by
  have h1 : assignedIds [StoreOp.add "a", StoreOp.add "b",
      StoreOp.delete 2, StoreOp.add "c"] = [1, 2, 2] := by decide
  refine ⟨h1, ?_⟩
  rw [h1]
  intro hc
  exact absurd ((List.chain'_cons.mp (List.chain'_cons.mp hc).2).1) (lt_irrefl 2)

/-- Claim C9 (amended): each `add_plant` assigns an id strictly greater
than every id currently in the store (hence distinct from all of them),
and across a history made of adds only the assigned ids are strictly
increasing; after a delete, a later add may reuse a previously assigned
id. -/
theorem plant_id_assignment_amended (ps : List Plant) (n : String)
    (ops : List StoreOp) (hnd : noDelete ops = true) :
    (∀ p ∈ ps, p.id < (add_plant ps n).1.id) ∧
    List.Chain' (· < ·) (assignedIds ops) := by
  constructor
  · intro p hp
    exact add_plant_id_gt hp
  · exact (runOps_ids_spec ops [] hnd).1

/-- Witness for the amended claim C9 at a concrete store and history. -/
theorem plant_id_assignment_amended_witness :
    noDelete [StoreOp.add "x", StoreOp.add "y"] = true ∧
    (∀ p ∈ [(⟨1, "a"⟩ : Plant)], p.id < (add_plant [(⟨1, "a"⟩ : Plant)] "b").1.id) ∧
    List.Chain' (· < ·) (assignedIds [StoreOp.add "x", StoreOp.add "y"]) := by
  have h := plant_id_assignment_amended [(⟨1, "a"⟩ : Plant)] "b"
    [StoreOp.add "x", StoreOp.add "y"] rfl
  exact ⟨rfl, h.1, h.2⟩
